import Mathlib

/-!
Verification of the `FlowingGlassEffect` component
(`src/components/Home.tsx`): a shallow embedding over ℚ of the GLSL
fragment shader (cover-fit UV mapping, fractal glass displacement,
smooth edge fade, mouse parallax, final clamp) and of the component's
event handlers and teardown sequence.

GLSL single-precision arithmetic is modelled by exact rational
arithmetic; GLSL `mod`, `sign`, `clamp`, `mix` and `smoothstep` are
given their specified definitions.
-/

/-- A 2-component vector, as GLSL `vec2`, with rational components. -/
structure Vec2 where
  x : ℚ
  y : ℚ
deriving DecidableEq

/-- GLSL `mod(a, m) = a - m * floor(a / m)`. -/
def glslMod (a m : ℚ) : ℚ := a - m * (⌊a / m⌋ : ℤ)

/-- GLSL `sign`: 1 for positive, -1 for negative, 0 at 0. -/
def glslSign (a : ℚ) : ℚ := if 0 < a then 1 else if a < 0 then -1 else 0

/-- GLSL `clamp(x, lo, hi) = min(max(x, lo), hi)`. -/
def glslClamp (x lo hi : ℚ) : ℚ := min (max x lo) hi

/-- GLSL `mix(a, b, t) = a * (1 - t) + b * t`. -/
def glslMix (a b t : ℚ) : ℚ := a * (1 - t) + b * t

/-- The cubic Hermite polynomial `t * t * (3 - 2 * t)` applied by
`smoothstep` after clamping. -/
def hermite (t : ℚ) : ℚ := t * t * (3 - 2 * t)

/-- GLSL `smoothstep(e0, e1, x)`: clamp the normalized position to
[0,1] and apply the cubic Hermite polynomial. -/
def smoothstep (e0 e1 x : ℚ) : ℚ :=
  hermite (glslClamp ((x - e0) / (e1 - e0)) 0 1)

/-- The scale factor of the cover-fit mapping: with
`s = uResolution / textureSize`, `scale = max(s.x, s.y)`
(shader, `getCoverUV`). -/
def coverScale (uResolution textureSize : Vec2) : ℚ :=
  max (uResolution.x / textureSize.x) (uResolution.y / textureSize.y)

/-- `scaledSize = textureSize * scale` in `getCoverUV`. -/
def coverScaledSize (uResolution textureSize : Vec2) : Vec2 :=
  ⟨textureSize.x * coverScale uResolution textureSize,
   textureSize.y * coverScale uResolution textureSize⟩

/-- `offset = (uResolution - scaledSize) * 0.5` in `getCoverUV`. -/
def coverOffset (uResolution textureSize : Vec2) : Vec2 :=
  ⟨(uResolution.x - (coverScaledSize uResolution textureSize).x) * (1/2),
   (uResolution.y - (coverScaledSize uResolution textureSize).y) * (1/2)⟩

/-- Shader `getCoverUV`: returns `uv` unchanged when the texture size is
degenerate (either axis < 1), otherwise maps
`(uv * uResolution - offset) / scaledSize`. -/
def getCoverUV (uResolution uv textureSize : Vec2) : Vec2 :=
  if textureSize.x < 1 ∨ textureSize.y < 1 then uv
  else
    let scaledSize := coverScaledSize uResolution textureSize
    let offset := coverOffset uResolution textureSize
    ⟨(uv.x * uResolution.x - offset.x) / scaledSize.x,
     (uv.y * uResolution.y - offset.y) / scaledSize.y⟩

/-- Shader `displacement(x, num_stripes, strength)`: with
`modulus = 1 / num_stripes`, returns `mod(x, modulus) * strength`. -/
def displacement (x num_stripes strength : ℚ) : ℚ :=
  glslMod x (1 / num_stripes) * strength

/-- Shader `fractalGlass(x, time)`: sums `displacement` at the 11
offsets `i * uGlassSmoothness + time * uFlowSpeed` for `i = -5..5`,
divides by 11 and adds the result to `x`.  The uniform scalars are
passed explicitly. -/
def fractalGlass (glassSmoothness flowSpeed stripesFrequency glassStrength x time : ℚ) : ℚ :=
  x + ((Finset.Icc (-5 : ℤ) 5).sum fun i =>
    displacement (x + ((i : ℚ) * glassSmoothness + time * flowSpeed))
      stripesFrequency glassStrength) / 11

/-- Shader `smoothEdge(x, padding)`: smoothstep ease-in below
`padding`, ease-out above `1 - padding`, and 1 in between. -/
def smoothEdge (x padding : ℚ) : ℚ :=
  let edge := padding
  if x < edge then smoothstep 0 edge x
  else if 1 - edge < x then smoothstep 1 (1 - edge) x
  else 1

/-- The shader's uniform set (the texture handle itself is not
modelled; its pixel size is `uTextureSize`). -/
structure Uniforms where
  uResolution : Vec2
  uTextureSize : Vec2
  uMouse : Vec2
  uTime : ℚ
  uParallaxStrength : ℚ
  uDistortionMultiplier : ℚ
  uGlassStrength : ℚ
  uStripesFrequency : ℚ
  uGlassSmoothness : ℚ
  uEdgePadding : ℚ
  uFlowSpeed : ℚ
deriving DecidableEq

/-- `main`, line 68: `edgeFactor = smoothEdge(originalX, uEdgePadding)`. -/
def edgeFactorOf (u : Uniforms) (vUv : Vec2) : ℚ :=
  smoothEdge vUv.x u.uEdgePadding

/-- `main`, lines 71-72: the distorted horizontal coordinate
`mix(originalX, fractalGlass(originalX, uTime), edgeFactor)`. -/
def distortedX (u : Uniforms) (vUv : Vec2) : ℚ :=
  glslMix vUv.x
    (fractalGlass u.uGlassSmoothness u.uFlowSpeed u.uStripesFrequency
      u.uGlassStrength vUv.x u.uTime)
    (edgeFactorOf u vUv)

/-- `main`, lines 77-85: the parallax offset vector (with
`normalizedMouse.x = uMouse.x / uResolution.x` and
`parallaxDirection = -sign(0.5 - normalizedMouse.x)`), already
multiplied by the edge factor (`parallaxOffset *= edgeFactor`). -/
def parallaxOffset (u : Uniforms) (distortionFactor edgeFactor : ℚ) : Vec2 :=
  ⟨-(glslSign (1/2 - u.uMouse.x / u.uResolution.x)) *
     |u.uMouse.x / u.uResolution.x - 1/2| * u.uParallaxStrength *
     (1 + |distortionFactor| * u.uDistortionMultiplier) * edgeFactor,
   0 * edgeFactor⟩

/-- `main`, lines 88-89: cover-fit then clamp each component to [0,1]. -/
def clampCover (u : Uniforms) (uv : Vec2) : Vec2 :=
  ⟨glslClamp (getCoverUV u.uResolution uv u.uTextureSize).x 0 1,
   glslClamp (getCoverUV u.uResolution uv u.uTextureSize).y 0 1⟩

/-- The fragment shader `main`, as the map from the interpolated `vUv`
to the coordinate handed to `texture2D`. -/
def shaderMain (u : Uniforms) (vUv : Vec2) : Vec2 :=
  clampCover u
    ⟨distortedX u vUv
       + (parallaxOffset u (distortedX u vUv - vUv.x) (edgeFactorOf u vUv)).x,
     vUv.y
       + (parallaxOffset u (distortedX u vUv - vUv.x) (edgeFactorOf u vUv)).y⟩

/-- The uniform set built at mount (lines 132-154) for a window of size
`w × h`: texture size defaults to (1,1), the mouse starts at the window
center, and the seven tunables take their literal values. -/
def initialUniforms (w h : ℚ) : Uniforms where
  uResolution := ⟨w, h⟩
  uTextureSize := ⟨1, 1⟩
  uMouse := ⟨w / 2, h / 2⟩
  uTime := 0
  uParallaxStrength := 1/10
  uDistortionMultiplier := 10
  uGlassStrength := 2
  uStripesFrequency := 35
  uGlassSmoothness := 1/100000
  uEdgePadding := 1/10
  uFlowSpeed := 1/100

/-- The texture-load continuation (lines 128-130): on success the
loader calls back with the image's pixel size and the callback writes
it to `uTextureSize`; on failure no callback runs and the uniforms are
untouched. -/
def applyTextureLoad : Option Vec2 → Uniforms → Uniforms
  | none, u => u
  | some sz, u => { u with uTextureSize := sz }

/-- The component state outside the uniforms that the event handlers
touch: the camera's aspect ratio and the renderer's drawing-buffer
size. -/
structure ComponentState where
  uniforms : Uniforms
  cameraAspect : ℚ
  rendererSize : Vec2
deriving DecidableEq

/-- `onResize` (lines 171-179) at window size `w × h`: sets the camera
aspect to `w / h`, resizes the renderer, and writes `(w, h)` to the
resolution uniform. -/
def onResize (w h : ℚ) (s : ComponentState) : ComponentState :=
  { s with
    cameraAspect := w / h
    rendererSize := ⟨w, h⟩
    uniforms := { s.uniforms with uResolution := ⟨w, h⟩ } }

/-- `onMouseMove` (lines 166-169): writes the event's client
coordinates into the mouse uniform and touches nothing else. -/
def onMouseMove (clientX clientY : ℚ) (s : ComponentState) : ComponentState :=
  { s with uniforms := { s.uniforms with uMouse := ⟨clientX, clientY⟩ } }

/-- The side effects performed by the `useEffect` cleanup closure
(lines 192-203), one constructor per statement. -/
inductive CleanupStep where
  | removeMouseMoveListener
  | removeResizeListener
  | cancelFrame
  | detachCanvas
  | disposeGeometry
  | disposeMaterial
  | disposeTexture
  | disposeRenderer
deriving DecidableEq

/-- The coarse kind of each cleanup side effect, used to state the
required ordering: listener detachment, frame cancellation, surface
detachment, resource release. -/
inductive CleanupKind where
  | listenerDetach
  | frameCancel
  | surfaceDetach
  | resourceRelease
deriving DecidableEq

/-- Kind of each cleanup step. -/
def CleanupStep.kind : CleanupStep → CleanupKind
  | .removeMouseMoveListener => .listenerDetach
  | .removeResizeListener => .listenerDetach
  | .cancelFrame => .frameCancel
  | .detachCanvas => .surfaceDetach
  | .disposeGeometry => .resourceRelease
  | .disposeMaterial => .resourceRelease
  | .disposeTexture => .resourceRelease
  | .disposeRenderer => .resourceRelease

/-- The attachment/allocation state of everything the mounted effect
holds: each flag is true while the corresponding listener is attached,
the frame callback is pending, the canvas is a child of the container,
or the resource is undisposed. -/
structure MountState where
  mouseMoveListenerAttached : Bool
  resizeListenerAttached : Bool
  framePending : Bool
  canvasAttached : Bool
  geometryAllocated : Bool
  materialAllocated : Bool
  textureAllocated : Bool
  rendererAllocated : Bool
deriving DecidableEq

/-- State after the mount effect body ran (lines 100-190): both
listeners attached, a frame scheduled, the canvas appended, all four
resources allocated. -/
def mountedState : MountState :=
  ⟨true, true, true, true, true, true, true, true⟩

/-- Effect of one cleanup statement on the mount state.  `detachCanvas`
is guarded in the source (`if (canvasRef.current && container)`); the
guard is modelled by only clearing the flag when the canvas is
attached. -/
def applyCleanupStep (s : MountState) : CleanupStep → MountState
  | .removeMouseMoveListener => { s with mouseMoveListenerAttached := false }
  | .removeResizeListener => { s with resizeListenerAttached := false }
  | .cancelFrame => { s with framePending := false }
  | .detachCanvas =>
      if s.canvasAttached then { s with canvasAttached := false } else s
  | .disposeGeometry => { s with geometryAllocated := false }
  | .disposeMaterial => { s with materialAllocated := false }
  | .disposeTexture => { s with textureAllocated := false }
  | .disposeRenderer => { s with rendererAllocated := false }

/-- The cleanup statements in source order (lines 193-202). -/
def cleanupSteps : List CleanupStep :=
  [.removeMouseMoveListener, .removeResizeListener, .cancelFrame,
   .detachCanvas, .disposeGeometry, .disposeMaterial, .disposeTexture,
   .disposeRenderer]

/-- Run the whole cleanup closure on a mount state. -/
def runCleanup (s : MountState) : MountState :=
  cleanupSteps.foldl applyCleanupStep s

/-! ### Helper lemmas -/

lemma glslClamp_unit_mem (z : ℚ) : 0 ≤ glslClamp z 0 1 ∧ glslClamp z 0 1 ≤ 1 :=
  ⟨le_min (le_max_right z 0) zero_le_one, min_le_right _ 1⟩

lemma glslClamp_unit_of_mem {z : ℚ} (h0 : 0 ≤ z) (h1 : z ≤ 1) :
    glslClamp z 0 1 = z := by
  unfold glslClamp
  rw [max_eq_left h0, min_eq_left h1]

lemma glslMod_add_period (a m : ℚ) (hm : m ≠ 0) :
    glslMod (a + m) m = glslMod a m := by
  unfold glslMod
  have h : (a + m) / m = a / m + 1 := by field_simp
  rw [h, Int.floor_add_one]
  push_cast
  ring

lemma hermite_nonneg {t : ℚ} (h0 : 0 ≤ t) (h1 : t ≤ 1) : 0 ≤ hermite t := by
  unfold hermite
  nlinarith

lemma hermite_le_one {t : ℚ} (h0 : 0 ≤ t) (h1 : t ≤ 1) : hermite t ≤ 1 := by
  unfold hermite
  nlinarith [sq_nonneg (1 - t)]

lemma hermite_mono {a b : ℚ} (ha : 0 ≤ a) (hab : a ≤ b) (hb : b ≤ 1) :
    hermite a ≤ hermite b := by
  unfold hermite
  have hb0 : 0 ≤ b := ha.trans hab
  have h1 : 0 ≤ b - a := sub_nonneg.2 hab
  have h2 : 0 ≤ 1 - b := sub_nonneg.2 hb
  have h3 : 0 ≤ 1 - a := sub_nonneg.2 (hab.trans hb)
  have h4 : 0 ≤ 2 - (a + b) := by linarith
  have h5 : 0 ≤ a + b := by linarith
  nlinarith [mul_nonneg (mul_nonneg h1 ha) h3, mul_nonneg (mul_nonneg h1 hb0) h2,
    mul_nonneg (mul_nonneg h1 h5) h4]

lemma smoothEdge_left {p x : ℚ} (hx : x < p) :
    smoothEdge x p = hermite (glslClamp (x / p) 0 1) := by
  unfold smoothEdge smoothstep
  rw [if_pos hx, sub_zero, sub_zero]

lemma smoothEdge_right {p x : ℚ} (hxp : ¬ x < p) (hx : 1 - p < x) :
    smoothEdge x p = hermite (glslClamp ((1 - x) / p) 0 1) := by
  unfold smoothEdge smoothstep
  rw [if_neg hxp, if_pos hx]
  have h : (x - 1) / (1 - p - 1) = (1 - x) / p := by
    rw [show (1 : ℚ) - p - 1 = -p by ring, div_neg, ← neg_div]
    norm_num
  rw [h]

lemma smoothEdge_mid {p x : ℚ} (hxp : ¬ x < p) (hx1 : ¬ 1 - p < x) :
    smoothEdge x p = 1 := by
  unfold smoothEdge
  rw [if_neg hxp, if_neg hx1]

/-! ### Claim theorems -/

/-- C1: for every viewport size and every texture size at least 1px on
each axis, `getCoverUV`'s scale factor is `max(w/tw, h/th)`, the scaled
texture size covers the viewport on both axes, and the offset centers
the scaled texture (equal margins on each side); concretely, texture
800×600 in a 1600×900 viewport gives scale 2, scaled size (1600,1200)
and vertical offset -150. -/
theorem getCoverUV_cover_and_centered (w h tw th : ℚ) (htw : 1 ≤ tw) (hth : 1 ≤ th) :
    coverScale ⟨w, h⟩ ⟨tw, th⟩ = max (w / tw) (h / th)
    ∧ w ≤ (coverScaledSize ⟨w, h⟩ ⟨tw, th⟩).x
    ∧ h ≤ (coverScaledSize ⟨w, h⟩ ⟨tw, th⟩).y
    ∧ (coverOffset ⟨w, h⟩ ⟨tw, th⟩).x
        = w - ((coverOffset ⟨w, h⟩ ⟨tw, th⟩).x + (coverScaledSize ⟨w, h⟩ ⟨tw, th⟩).x)
    ∧ (coverOffset ⟨w, h⟩ ⟨tw, th⟩).y
        = h - ((coverOffset ⟨w, h⟩ ⟨tw, th⟩).y + (coverScaledSize ⟨w, h⟩ ⟨tw, th⟩).y)
    ∧ coverScale ⟨1600, 900⟩ ⟨800, 600⟩ = 2
    ∧ coverScaledSize ⟨1600, 900⟩ ⟨800, 600⟩ = ⟨1600, 1200⟩
    ∧ (coverOffset ⟨1600, 900⟩ ⟨800, 600⟩).y = -150 := by
  have htw0 : (0 : ℚ) < tw := lt_of_lt_of_le one_pos htw
  have hth0 : (0 : ℚ) < th := lt_of_lt_of_le one_pos hth
  refine ⟨rfl, ?_, ?_, ?_, ?_, by norm_num [coverScale],
    by norm_num [coverScaledSize, coverScale],
    by norm_num [coverOffset, coverScaledSize, coverScale]⟩
  · have hw : w = tw * (w / tw) := by field_simp
    calc w = tw * (w / tw) := hw
    _ ≤ tw * coverScale ⟨w, h⟩ ⟨tw, th⟩ :=
        mul_le_mul_of_nonneg_left (le_max_left _ _) htw0.le
    _ = (coverScaledSize ⟨w, h⟩ ⟨tw, th⟩).x := rfl
  · have hh : h = th * (h / th) := by field_simp
    calc h = th * (h / th) := hh
    _ ≤ th * coverScale ⟨w, h⟩ ⟨tw, th⟩ :=
        mul_le_mul_of_nonneg_left (le_max_right _ _) hth0.le
    _ = (coverScaledSize ⟨w, h⟩ ⟨tw, th⟩).y := rfl
  · simp only [coverOffset]
    ring
  · simp only [coverOffset]
    ring

/-- Witness for C1 at viewport 1600×900 and texture 800×600. -/
theorem getCoverUV_cover_and_centered_witness :
    ((1 : ℚ) ≤ 800 ∧ (1 : ℚ) ≤ 600)
    ∧ (1600 : ℚ) ≤ (coverScaledSize ⟨1600, 900⟩ ⟨800, 600⟩).x
    ∧ (900 : ℚ) ≤ (coverScaledSize ⟨1600, 900⟩ ⟨800, 600⟩).y
    ∧ (coverOffset ⟨1600, 900⟩ ⟨800, 600⟩).y = -150 :=
  ⟨⟨by norm_num, by norm_num⟩,
   (getCoverUV_cover_and_centered 1600 900 800 600 (by norm_num) (by norm_num)).2.1,
   (getCoverUV_cover_and_centered 1600 900 800 600 (by norm_num) (by norm_num)).2.2.1,
   (getCoverUV_cover_and_centered 1600 900 800 600 (by norm_num) (by norm_num)).2.2.2.2.2.2.2⟩

/-- C2: the cleanup closure performs, in order, two listener
detachments, then the frame cancellation, then the canvas detachment,
then the four resource disposals, and running it on the mounted state
leaves no listener attached, no frame pending, no canvas attached, and
no resource undisposed. -/
theorem cleanup_ordered_and_complete :
    cleanupSteps.map CleanupStep.kind =
      [.listenerDetach, .listenerDetach, .frameCancel, .surfaceDetach,
       .resourceRelease, .resourceRelease, .resourceRelease, .resourceRelease]
    ∧ runCleanup mountedState =
      ⟨false, false, false, false, false, false, false, false⟩ :=
  ⟨rfl, rfl⟩

/-- C6: `getCoverUV` returns the input UV unchanged whenever the
texture size is below 1 pixel on either axis, for every input UV and
viewport resolution. -/
theorem getCoverUV_degenerate (res uv ts : Vec2) (hd : ts.x < 1 ∨ ts.y < 1) :
    getCoverUV res uv ts = uv := by
  unfold getCoverUV
  rw [if_pos hd]

/-- Witness for C6 at texture size (1/2, 600). -/
theorem getCoverUV_degenerate_witness :
    ((Vec2.mk (1/2) 600).x < 1 ∨ (Vec2.mk (1/2) 600).y < 1)
    ∧ getCoverUV ⟨1600, 900⟩ ⟨1/3, 1/4⟩ ⟨1/2, 600⟩ = ⟨1/3, 1/4⟩ :=
  ⟨Or.inl (by norm_num),
   getCoverUV_degenerate ⟨1600, 900⟩ ⟨1/3, 1/4⟩ ⟨1/2, 600⟩ (Or.inl (by norm_num))⟩

/-- C8: for every uniform setting and every interpolated UV, the
coordinate `shaderMain` hands to the texture sampler lies in [0,1] on
both axes. -/
theorem shaderMain_in_bounds (u : Uniforms) (vUv : Vec2) :
    0 ≤ (shaderMain u vUv).x ∧ (shaderMain u vUv).x ≤ 1
    ∧ 0 ≤ (shaderMain u vUv).y ∧ (shaderMain u vUv).y ≤ 1 := by
  simp only [shaderMain, clampCover]
  exact ⟨(glslClamp_unit_mem _).1, (glslClamp_unit_mem _).2,
    (glslClamp_unit_mem _).1, (glslClamp_unit_mem _).2⟩

/-- C9: after `onResize` fires with viewport size (w,h), the resolution
uniform equals (w,h) exactly and the camera aspect equals w/h, for any
prior component state. -/
theorem onResize_restores_resolution (w h : ℚ) (s : ComponentState) :
    (onResize w h s).uniforms.uResolution = ⟨w, h⟩
    ∧ (onResize w h s).cameraAspect = w / h :=
  ⟨rfl, rfl⟩

/-- C10: `onMouseMove` sets the mouse uniform to the event's client
coordinates and leaves every other uniform and all other component
state unchanged. -/
theorem onMouseMove_only_mouse (cx cy : ℚ) (s : ComponentState) :
    (onMouseMove cx cy s).uniforms.uMouse = ⟨cx, cy⟩
    ∧ (onMouseMove cx cy s).uniforms.uTime = s.uniforms.uTime
    ∧ (onMouseMove cx cy s).uniforms.uResolution = s.uniforms.uResolution
    ∧ (onMouseMove cx cy s).uniforms.uTextureSize = s.uniforms.uTextureSize
    ∧ (onMouseMove cx cy s).uniforms.uParallaxStrength = s.uniforms.uParallaxStrength
    ∧ (onMouseMove cx cy s).uniforms.uDistortionMultiplier = s.uniforms.uDistortionMultiplier
    ∧ (onMouseMove cx cy s).uniforms.uGlassStrength = s.uniforms.uGlassStrength
    ∧ (onMouseMove cx cy s).uniforms.uStripesFrequency = s.uniforms.uStripesFrequency
    ∧ (onMouseMove cx cy s).uniforms.uGlassSmoothness = s.uniforms.uGlassSmoothness
    ∧ (onMouseMove cx cy s).uniforms.uEdgePadding = s.uniforms.uEdgePadding
    ∧ (onMouseMove cx cy s).uniforms.uFlowSpeed = s.uniforms.uFlowSpeed
    ∧ (onMouseMove cx cy s).cameraAspect = s.cameraAspect
    ∧ (onMouseMove cx cy s).rendererSize = s.rendererSize :=
  ⟨rfl, rfl, rfl, rfl, rfl, rfl, rfl, rfl, rfl, rfl, rfl, rfl, rfl⟩

/-- C4: the fractal glass displacement `fractalGlass(x,t) - x` is
periodic in `x` with period `1/stripesFrequency` at every fixed time
(for nonzero frequency), and shifting time by `D` shifts the pattern by
`D * flowSpeed`: `d(x, t+D) = d(x + D*flowSpeed, t)`. -/
theorem fractalGlass_periodic_and_phase_shift
    (s v f g x t D : ℚ) (hf : f ≠ 0) :
    fractalGlass s v f g (x + 1 / f) t - (x + 1 / f)
      = fractalGlass s v f g x t - x
    ∧ fractalGlass s v f g x (t + D) - x
      = fractalGlass s v f g (x + D * v) t - (x + D * v) := by
  constructor
  · unfold fractalGlass
    have hsum : ((Finset.Icc (-5 : ℤ) 5).sum fun i =>
          displacement ((x + 1 / f) + ((i : ℚ) * s + t * v)) f g)
        = (Finset.Icc (-5 : ℤ) 5).sum fun i =>
          displacement (x + ((i : ℚ) * s + t * v)) f g := by
      refine Finset.sum_congr rfl fun i _ => ?_
      unfold displacement
      rw [show (x + 1 / f) + ((i : ℚ) * s + t * v)
            = (x + ((i : ℚ) * s + t * v)) + 1 / f by ring,
        glslMod_add_period _ _ (one_div_ne_zero hf)]
    rw [hsum]
    ring
  · unfold fractalGlass
    have hsum : ((Finset.Icc (-5 : ℤ) 5).sum fun i =>
          displacement (x + ((i : ℚ) * s + (t + D) * v)) f g)
        = (Finset.Icc (-5 : ℤ) 5).sum fun i =>
          displacement ((x + D * v) + ((i : ℚ) * s + t * v)) f g := by
      refine Finset.sum_congr rfl fun i _ => ?_
      rw [show x + ((i : ℚ) * s + (t + D) * v)
            = (x + D * v) + ((i : ℚ) * s + t * v) by ring]
    rw [hsum]
    ring

/-- Witness for C4 at smoothness 1/100000, flow speed 1/100,
frequency 35, strength 2, x = 1/3, t = 1/7, D = 5. -/
theorem fractalGlass_periodic_and_phase_shift_witness :
    (35 : ℚ) ≠ 0
    ∧ (fractalGlass (1/100000) (1/100) 35 2 (1/3 + 1 / 35) (1/7) - (1/3 + 1 / 35)
        = fractalGlass (1/100000) (1/100) 35 2 (1/3) (1/7) - 1/3
      ∧ fractalGlass (1/100000) (1/100) 35 2 (1/3) (1/7 + 5) - 1/3
        = fractalGlass (1/100000) (1/100) 35 2 (1/3 + 5 * (1/100)) (1/7)
            - (1/3 + 5 * (1/100))) :=
  ⟨by norm_num,
   fractalGlass_periodic_and_phase_shift (1/100000) (1/100) 35 2 (1/3) (1/7) 5
     (by norm_num)⟩

/-- C7: with the pointer exactly at the horizontal viewport midpoint
(`uMouse.x = uResolution.x / 2`, nonzero width), the parallax offset is
(0,0) for every distortion factor and edge factor, and the sampled UV
equals the distortion-only UV. -/
theorem parallax_zero_at_midpoint (u : Uniforms) (vUv : Vec2)
    (hres : u.uResolution.x ≠ 0) (hm : u.uMouse.x = u.uResolution.x / 2) :
    (∀ df ef : ℚ, parallaxOffset u df ef = ⟨0, 0⟩)
    ∧ shaderMain u vUv = clampCover u ⟨distortedX u vUv, vUv.y⟩ := by
  have hnm : u.uMouse.x / u.uResolution.x = 1 / 2 := by
    rw [hm]
    field_simp
    ring
  have hpo : ∀ df ef : ℚ, parallaxOffset u df ef = ⟨0, 0⟩ := by
    intro df ef
    unfold parallaxOffset
    rw [hnm]
    norm_num [glslSign]
  refine ⟨hpo, ?_⟩
  unfold shaderMain
  rw [hpo]
  norm_num

/-- Witness for C7 with the initial uniforms of a 1600×900 window
(mouse starts at the window center). -/
theorem parallax_zero_at_midpoint_witness :
    ((initialUniforms 1600 900).uResolution.x ≠ 0
      ∧ (initialUniforms 1600 900).uMouse.x
          = (initialUniforms 1600 900).uResolution.x / 2)
    ∧ parallaxOffset (initialUniforms 1600 900) 3 (1/2) = ⟨0, 0⟩ :=
  ⟨⟨by norm_num [initialUniforms], rfl⟩,
   (parallax_zero_at_midpoint (initialUniforms 1600 900) ⟨1/3, 1/4⟩
     (by norm_num [initialUniforms]) rfl).1 3 (1/2)⟩

/-- C5 counterexample: with the default texture size (1,1), `getCoverUV`
is not the identity mapping for every viewport resolution: at viewport
(1600,900) the UV (0,0) maps to (0, 7/32). -/
theorem getCoverUV_unit_texture_not_identity :
    getCoverUV ⟨1600, 900⟩ ⟨0, 0⟩ ⟨1, 1⟩ ≠ ⟨0, 0⟩ := by
  norm_num [getCoverUV, coverOffset, coverScaledSize, coverScale]

/-- C5 (amended): the texture-size uniform is initialized to (1,1) and
a failed texture load (no callback) leaves the uniforms untouched; with
texture size (1,1) `getCoverUV` is the identity mapping for every input
UV whenever the viewport resolution is square with nonzero side — it is
the cover-fit of a 1×1 texture, not the identity, in general. -/
theorem texture_load_failure_default_cover (w h : ℚ) (u : Uniforms)
    (uv res : Vec2) (hsq : res.x = res.y) (hnz : res.x ≠ 0) :
    (initialUniforms w h).uTextureSize = ⟨1, 1⟩
    ∧ applyTextureLoad none u = u
    ∧ getCoverUV res uv ⟨1, 1⟩ = uv := by
  refine ⟨rfl, rfl, ?_⟩
  unfold getCoverUV coverOffset coverScaledSize coverScale
  rw [if_neg (by norm_num)]
  have hmax : max (res.x / 1) (res.y / 1) = res.x := by
    rw [div_one, div_one, ← hsq, max_self]
  simp only [hmax, one_mul]
  have hx : (uv.x * res.x - (res.x - res.x) * (1/2)) / res.x = uv.x := by
    field_simp
  have hy : (uv.y * res.y - (res.y - res.x) * (1/2)) / res.x = uv.y := by
    rw [← hsq]
    field_simp
  rw [hx, hy]

/-- Witness for the amended C5 at square resolution (2,2). -/
theorem texture_load_failure_default_cover_witness :
    ((Vec2.mk 2 2).x = (Vec2.mk 2 2).y ∧ (Vec2.mk 2 2).x ≠ 0)
    ∧ (initialUniforms 1600 900).uTextureSize = ⟨1, 1⟩
    ∧ applyTextureLoad none (initialUniforms 1600 900) = initialUniforms 1600 900
    ∧ getCoverUV ⟨2, 2⟩ ⟨1/3, 1/4⟩ ⟨1, 1⟩ = ⟨1/3, 1/4⟩ :=
  ⟨⟨rfl, by norm_num⟩,
   texture_load_failure_default_cover 1600 900 (initialUniforms 1600 900)
     ⟨1/3, 1/4⟩ ⟨2, 2⟩ rfl (by norm_num)⟩

/-- C3: for every padding strictly between 0 and 1/2, `smoothEdge`
vanishes at 0 and 1, equals 1 at 1/2, is monotone increasing on
[0, padding], monotone decreasing on [1-padding, 1], and is identically
1 on [padding, 1-padding]. -/
theorem smoothEdge_spec (p : ℚ) (hp0 : 0 < p) (hp : p < 1/2) :
    smoothEdge 0 p = 0 ∧ smoothEdge 1 p = 0 ∧ smoothEdge (1/2) p = 1
    ∧ (∀ x y, 0 ≤ x → x ≤ y → y ≤ p → smoothEdge x p ≤ smoothEdge y p)
    ∧ (∀ x y, 1 - p ≤ x → x ≤ y → y ≤ 1 → smoothEdge y p ≤ smoothEdge x p)
    ∧ (∀ x, p ≤ x → x ≤ 1 - p → smoothEdge x p = 1) := by
  refine ⟨?_, ?_, ?_, ?_, ?_, ?_⟩
  · rw [smoothEdge_left hp0, zero_div,
      glslClamp_unit_of_mem le_rfl zero_le_one]
    simp [hermite]
  · rw [smoothEdge_right (not_lt.2 (by linarith)) (by linarith),
      show ((1:ℚ) - 1) / p = 0 by norm_num,
      glslClamp_unit_of_mem le_rfl zero_le_one]
    simp [hermite]
  · exact smoothEdge_mid (not_lt.2 (by linarith)) (not_lt.2 (by linarith))
  · intro x y hx hxy hyp
    by_cases hy : y < p
    · have hxp : x < p := lt_of_le_of_lt hxy hy
      have hx0 : 0 ≤ x / p := div_nonneg hx hp0.le
      have hy0 : 0 ≤ y / p := div_nonneg (hx.trans hxy) hp0.le
      have hx1 : x / p ≤ 1 := (div_le_one hp0).2 hxp.le
      have hy1 : y / p ≤ 1 := (div_le_one hp0).2 hyp
      rw [smoothEdge_left hxp, smoothEdge_left hy,
        glslClamp_unit_of_mem hx0 hx1, glslClamp_unit_of_mem hy0 hy1]
      exact hermite_mono hx0 (by gcongr) hy1
    · rw [smoothEdge_mid hy (not_lt.2 (by linarith))]
      by_cases hxp : x < p
      · rw [smoothEdge_left hxp]
        exact hermite_le_one (glslClamp_unit_mem _).1 (glslClamp_unit_mem _).2
      · rw [smoothEdge_mid hxp (not_lt.2 (by linarith))]
  · intro x y h1x hxy hy1
    by_cases hx : 1 - p < x
    · have hy : 1 - p < y := lt_of_lt_of_le hx hxy
      have ha0 : 0 ≤ (1 - y) / p := div_nonneg (by linarith) hp0.le
      have hb0 : 0 ≤ (1 - x) / p := div_nonneg (by linarith) hp0.le
      have hb1 : (1 - x) / p ≤ 1 := (div_le_one hp0).2 (by linarith)
      have hyx : 1 - y ≤ 1 - x := by linarith
      have hab : (1 - y) / p ≤ (1 - x) / p := by gcongr
      have ha1 : (1 - y) / p ≤ 1 := hab.trans hb1
      rw [smoothEdge_right (not_lt.2 (by linarith)) hx,
        smoothEdge_right (not_lt.2 (by linarith)) hy,
        glslClamp_unit_of_mem ha0 ha1, glslClamp_unit_of_mem hb0 hb1]
      exact hermite_mono ha0 hab hb1
    · rw [smoothEdge_mid (not_lt.2 (by linarith)) hx]
      by_cases hy : 1 - p < y
      · rw [smoothEdge_right (not_lt.2 (by linarith)) hy]
        exact hermite_le_one (glslClamp_unit_mem _).1 (glslClamp_unit_mem _).2
      · rw [smoothEdge_mid (not_lt.2 (by linarith)) hy]
  · intro x hpx hx1p
    exact smoothEdge_mid (not_lt.2 hpx) (not_lt.2 hx1p)

/-- Witness for C3 at padding 1/4. -/
theorem smoothEdge_spec_witness :
    ((0:ℚ) < 1/4 ∧ (1/4:ℚ) < 1/2)
    ∧ smoothEdge 0 (1/4) = 0 ∧ smoothEdge 1 (1/4) = 0
    ∧ smoothEdge (1/2) (1/4) = 1 :=
  ⟨⟨by norm_num, by norm_num⟩,
   (smoothEdge_spec (1/4) (by norm_num) (by norm_num)).1,
   (smoothEdge_spec (1/4) (by norm_num) (by norm_num)).2.1,
   (smoothEdge_spec (1/4) (by norm_num) (by norm_num)).2.2.1⟩
